import Mathlib

set_option maxRecDepth 4000

/-!
Shallow embedding of `tcnksm/go-httpstat` (`httpstat.go`).

Go `time.Time` instants are modelled as `Nat` (nanoseconds; the Go zero
value corresponds to `0`, matching `Time.IsZero`). Go `time.Duration` is a
signed 64-bit nanosecond count, modelled as `Int`. `t.Sub(u)` is integer
subtraction. Each `httptrace` hook closure of `WithHTTPStat` becomes a
function `... → Result → Result`; every call of Go `time.Now()` inside a
hook becomes one explicit `Nat` parameter of that hook (WroteRequest calls
`time.Now()` twice, so it takes two).
-/

namespace Httpstat

/-- Go `time.Millisecond` in nanoseconds. -/
def Millisecond : Int := 1000000

/-- Go `t.Sub(u)` for two instants: a signed duration. -/
def sub (t u : Nat) : Int := (t : Int) - (u : Int)

/-- The `Result` struct of `httpstat.go`: five phase durations, five
cumulative timeline values, the marks `t0`–`t5`, and the two booleans.
Zero defaults model Go's zero-valued struct fields. -/
structure Result where
  DNSLookup : Int := 0
  TCPConnection : Int := 0
  TLSHandshake : Int := 0
  ServerProcessing : Int := 0
  contentTransfer : Int := 0
  NameLookup : Int := 0
  Connect : Int := 0
  Pretransfer : Int := 0
  StartTransfer : Int := 0
  total : Int := 0
  t0 : Nat := 0
  t1 : Nat := 0
  t2 : Nat := 0
  t3 : Nat := 0
  t4 : Nat := 0
  t5 : Nat := 0
  isTLS : Bool := false
  isReused : Bool := false
deriving DecidableEq, Repr

/-- Index of the last occurrence of `c` in `s` (helper for Go
`net.SplitHostPort`, which looks for the last colon). -/
def lastIndexOfAux (c : Char) : List Char → Nat → Option Nat → Option Nat
  | [], _, acc => acc
  | x :: xs, i, acc => lastIndexOfAux c xs (i + 1) (if x = c then some i else acc)

/-- Index of the last occurrence of a character. -/
def lastIndexOf (c : Char) (s : List Char) : Option Nat := lastIndexOfAux c s 0 none

/-- Index of the first occurrence of a character. -/
def firstIndexOfAux (c : Char) : List Char → Nat → Option Nat
  | [], _ => none
  | x :: xs, i => if x = c then some i else firstIndexOfAux c xs (i + 1)

/-- Index of the first occurrence of a character. -/
def firstIndexOf (c : Char) (s : List Char) : Option Nat := firstIndexOfAux c s 0

/-- Go `net.SplitHostPort`: `some (host, port)` on success, `none` on any
of its error returns (missing port, too many colons, bracket errors).
Faithful to the standard library: port starts after the last colon; a
leading `[` requires the first `]` to sit just before that colon; a
colon inside an unbracketed host, or any stray bracket, is an error. -/
def splitHostPort (hostPort : List Char) : Option (List Char × List Char) :=
  match lastIndexOf ':' hostPort with
  | none => none
  | some i =>
    if hostPort.head? = some '[' then
      match firstIndexOf ']' hostPort with
      | none => none
      | some e =>
        if e + 1 = hostPort.length then none
        else if e + 1 = i then
          if firstIndexOf '[' (hostPort.drop 1) ≠ none then none
          else if firstIndexOf ']' (hostPort.drop (e + 1)) ≠ none then none
          else some ((hostPort.drop 1).take (e - 1), hostPort.drop (i + 1))
        else none
    else
      if firstIndexOf ':' (hostPort.take i) ≠ none then none
      else if firstIndexOf '[' hostPort ≠ none then none
      else if firstIndexOf ']' hostPort ≠ none then none
      else some (hostPort.take i, hostPort.drop (i + 1))

/-- The `GetConn` hook: split `hostPort`; on error return unchanged;
otherwise heuristically set `isTLS` when the port is `"443"`. -/
def GetConn (hostPort : List Char) (r : Result) : Result :=
  match splitHostPort hostPort with
  | none => r
  | some (_, port) => if port = ['4', '4', '3'] then { r with isTLS := true } else r

/-- The `DNSStart` hook: `r.t0 = time.Now()`. -/
def DNSStart (now : Nat) (r : Result) : Result := { r with t0 := now }

/-- The `DNSDone` hook: record `t1` and compute `DNSLookup`/`NameLookup`. -/
def DNSDone (now : Nat) (r : Result) : Result :=
  { r with t1 := now, DNSLookup := sub now r.t0, NameLookup := sub now r.t0 }

/-- The `ConnectStart` hook: when connecting to an IP literal (`t0` still
zero) back-fill `t0 = t1 = now`. -/
def ConnectStart (now : Nat) (r : Result) : Result :=
  if r.t0 = 0 then { r with t0 := now, t1 := now } else r

/-- The `ConnectDone` hook: record `t2`; when `isTLS`, compute
`TCPConnection` and `Connect`. -/
def ConnectDone (now : Nat) (r : Result) : Result :=
  let r1 := { r with t2 := now }
  if r1.isTLS then
    { r1 with TCPConnection := sub r1.t2 r1.t1, Connect := sub r1.t2 r1.t0 }
  else r1

/-- The `GotConn` hook: when the connection is reused, back-fill
`t0 = t1 = t2 = now` and set `isReused`. -/
def GotConn (reused : Bool) (now : Nat) (r : Result) : Result :=
  if reused then { r with t0 := now, t1 := now, t2 := now, isReused := true } else r

/-- The `WroteRequest` hook. `now1` is the first `time.Now()` (assigned to
`t3`); `now2` is the second, used by the no-earlier-hooks back-fill. Then
the reused-connection rewrite of `t3`, and the TLS / non-TLS derivation
branches, exactly as in the source. -/
def WroteRequest (now1 now2 : Nat) (r : Result) : Result :=
  let r1 := { r with t3 := now1 }
  let r2 := if r1.t0 = 0 ∧ r1.t1 = 0 ∧ r1.t2 = 0 then
      { r1 with t0 := now2, t1 := now2, t2 := now2, t3 := now2 }
    else r1
  let r3 := if r2.isReused then { r2 with t3 := r2.t0 } else r2
  if r3.isTLS then
    { r3 with TLSHandshake := sub r3.t3 r3.t2, Pretransfer := sub r3.t3 r3.t0 }
  else
    let r4 := { r3 with TCPConnection := sub r3.t3 r3.t1, Connect := sub r3.t3 r3.t0 }
    { r4 with TLSHandshake := sub r4.t3 r4.t3, Pretransfer := r4.Connect }

/-- The `GotFirstResponseByte` hook: record `t4`, compute
`ServerProcessing` and `StartTransfer`. -/
def GotFirstResponseByte (now : Nat) (r : Result) : Result :=
  { r with t4 := now, ServerProcessing := sub now r.t3, StartTransfer := sub now r.t0 }

/-- The `Result.End` method: record `t5`; when `t0` is the zero time
return early, otherwise compute `contentTransfer` and `total`. -/
def Result.End (r : Result) (t : Nat) : Result :=
  let r1 := { r with t5 := t }
  if r1.t0 = 0 then r1
  else { r1 with contentTransfer := sub r1.t5 r1.t4, total := sub r1.t5 r1.t0 }

/-- The `Result.ContentTransfer` method: its body is a single read
(`t.Sub(r.t4)`); the returned pair carries the value and the receiver
state after the call (there is no assignment in the body). -/
def Result.ContentTransfer (r : Result) (t : Nat) : Int × Result := (sub t r.t4, r)

/-- The `Result.Total` method: `t.Sub(r.t0)`, again with the receiver
state after the call. -/
def Result.Total (r : Result) (t : Nat) : Int × Result := (sub t r.t0, r)

/-- The `durations` map literal, as the association list written in the
source (a Go map; its range-iteration order is unspecified). Note the
source binds key `"Pretransfer"` to field `Connect`. -/
def Result.durations (r : Result) : List (String × Int) :=
  [("DNSLookup", r.DNSLookup),
   ("TCPConnection", r.TCPConnection),
   ("TLSHandshake", r.TLSHandshake),
   ("ServerProcessing", r.ServerProcessing),
   ("ContentTransfer", r.contentTransfer),
   ("NameLookup", r.NameLookup),
   ("Connect", r.Connect),
   ("Pretransfer", r.Connect),
   ("StartTransfer", r.StartTransfer),
   ("Total", r.total)]

/-- One `k: v ms` item of the compact (`%s`/`%q`/plain `%v`) format:
when `End` was never called (`t5` zero), `ContentTransfer` and `Total`
print `-`; otherwise `%d` of `v / time.Millisecond` (Go integer division
truncates toward zero). -/
def compactEntry (r : Result) (kv : String × Int) : String :=
  if (kv.1 = "ContentTransfer" ∨ kv.1 = "Total") ∧ r.t5 = 0 then
    kv.1 ++ ": - ms"
  else
    kv.1 ++ ": " ++ toString (Int.tdiv kv.2 Millisecond) ++ " ms"

/-- The compact format: the comma-join of the `durations` entries in the
order the Go `range` loop happens to enumerate the map, which is
unspecified; `entries` stands for that enumeration, a permutation of
`r.durations`. -/
def formatCompact (r : Result) (entries : List (String × Int)) : String :=
  String.intercalate ", " (entries.map (compactEntry r))

/-- One lifecycle callback invocation, with the value(s) `time.Now()`
returned during it (none for `GetConn`, two for `WroteRequest`), or the
caller's `End` with its supplied instant. -/
inductive Event where
  | getConn (hostPort : List Char)
  | dnsStart (now : Nat)
  | dnsDone (now : Nat)
  | connectStart (now : Nat)
  | connectDone (now : Nat)
  | gotConn (reused : Bool) (now : Nat)
  | wroteRequest (now1 now2 : Nat)
  | gotFirstResponseByte (now : Nat)
  | endCall (t : Nat)
deriving DecidableEq, Repr

/-- Dispatch one event to the hook it names. -/
def step (r : Result) (e : Event) : Result :=
  match e with
  | .getConn hostPort => GetConn hostPort r
  | .dnsStart now => DNSStart now r
  | .dnsDone now => DNSDone now r
  | .connectStart now => ConnectStart now r
  | .connectDone now => ConnectDone now r
  | .gotConn reused now => GotConn reused now r
  | .wroteRequest now1 now2 => WroteRequest now1 now2 r
  | .gotFirstResponseByte now => GotFirstResponseByte now r
  | .endCall t => Result.End r t

/-- Run a sequence of events against a fresh (zero-valued) recorder. -/
def run (es : List Event) : Result := es.foldl step {}

/-- The wall-clock instants an event carries, in the order the hook reads
them. -/
def Event.times : Event → List Nat
  | .getConn _ => []
  | .dnsStart now => [now]
  | .dnsDone now => [now]
  | .connectStart now => [now]
  | .connectDone now => [now]
  | .gotConn _ now => [now]
  | .wroteRequest now1 now2 => [now1, now2]
  | .gotFirstResponseByte now => [now]
  | .endCall t => [t]

/-- All instants of a run, in order. -/
def timesOf (es : List Event) : List Nat := (es.map Event.times).flatten

/-- Adjacent-pairs check that a list of instants is non-decreasing. -/
def sortedLE : List Nat → Bool
  | [] => true
  | [_] => true
  | a :: b :: t => (decide (a ≤ b)) && sortedLE (b :: t)

/-- The instants of a run are non-decreasing. -/
def MonoTimes (es : List Event) : Prop := sortedLE (timesOf es) = true

instance (es : List Event) : Decidable (MonoTimes es) :=
  inferInstanceAs (Decidable (sortedLE (timesOf es) = true))

/-- A run in the order a conforming client fires the hooks: an optional
`GetConn`, optional DNS pair, optional connect pair, optional `GotConn`,
the `WroteRequest` (with its two `time.Now()` readings), an optional
`GotFirstResponseByte`, and at most one final `End`. -/
structure RunShape where
  hp : Option (List Char) := none
  dns : Option (Nat × Nat) := none
  conn : Option (Nat × Nat) := none
  gotC : Option (Bool × Nat) := none
  wrote : Nat × Nat := (0, 0)
  frb : Option Nat := none
  fin : Option Nat := none

/-- The events of a run shape after the optional `GetConn`. -/
def RunShape.tail (s : RunShape) : List Event :=
  (match s.dns with | some d => [Event.dnsStart d.1, Event.dnsDone d.2] | none => []) ++
  (match s.conn with | some c => [Event.connectStart c.1, Event.connectDone c.2] | none => []) ++
  (match s.gotC with | some g => [Event.gotConn g.1 g.2] | none => []) ++
  [Event.wroteRequest s.wrote.1 s.wrote.2] ++
  (match s.frb with | some f => [Event.gotFirstResponseByte f] | none => []) ++
  (match s.fin with | some e => [Event.endCall e] | none => [])

/-- All events of a run shape, in lifecycle order. -/
def RunShape.events (s : RunShape) : List Event :=
  (match s.hp with | some hq => [Event.getConn hq] | none => []) ++ s.tail

/-- `GetConn` never touches anything but `isTLS`: it returns the recorder
unchanged or with `isTLS` set. -/
theorem GetConn_cases (hp : List Char) (r : Result) :
    GetConn hp r = r ∨ GetConn hp r = { r with isTLS := true } := by
  unfold GetConn
  cases splitHostPort hp with
  | none => exact Or.inl rfl
  | some v =>
    obtain ⟨host, port⟩ := v
    by_cases h : port = ['4', '4', '3']
    · exact Or.inr (by simp [h])
    · exact Or.inl (by simp [h])

/-- All ten derived values of a recorder are non-negative. -/
def NonnegAll (r : Result) : Prop :=
  0 ≤ r.DNSLookup ∧ 0 ≤ r.TCPConnection ∧ 0 ≤ r.TLSHandshake ∧
  0 ≤ r.ServerProcessing ∧ 0 ≤ r.contentTransfer ∧
  0 ≤ r.NameLookup ∧ 0 ≤ r.Connect ∧ 0 ≤ r.Pretransfer ∧
  0 ≤ r.StartTransfer ∧ 0 ≤ r.total

/-- C3 counterexample: a sequence of callbacks whose timestamps are
non-decreasing (5, 7, 9, 9) but which is not in lifecycle order
(`DNSDone` after a reused `GotConn`) drives `TCPConnection` negative:
the code alone does not make all durations non-negative for every
non-decreasing timestamp sequence. -/
theorem arbitrary_order_negative_duration :
    MonoTimes [.gotConn true 5, .dnsDone 7, .wroteRequest 9 9] ∧
      (run [.gotConn true 5, .dnsDone 7, .wroteRequest 9 9]).TCPConnection < 0 := by
  decide

/-- C1: when `GotConn` fires with `reused = true` the recorder sets
`isReused` and back-fills `t0`, `t1`, `t2` (the dns-start/dns-done and
tcp-start/tcp-done marks) to the moment the reused connection was
obtained; after `WroteRequest` the DNS-lookup, TCP-connect and
TLS-handshake durations are all exactly zero. For a reused connection the
client skips the DNS and connect hooks, so the run is `GetConn`,
`GotConn(reused)`, `WroteRequest`. -/
theorem reused_conn_backfills_and_zeroes (hp : List Char) (g w1 w2 : Nat)
    (hg : 0 < g) :
    (run [.getConn hp, .gotConn true g, .wroteRequest w1 w2]).isReused = true ∧
      (run [.getConn hp, .gotConn true g, .wroteRequest w1 w2]).t0 = g ∧
      (run [.getConn hp, .gotConn true g, .wroteRequest w1 w2]).t1 = g ∧
      (run [.getConn hp, .gotConn true g, .wroteRequest w1 w2]).t2 = g ∧
      (run [.getConn hp, .gotConn true g, .wroteRequest w1 w2]).DNSLookup = 0 ∧
      (run [.getConn hp, .gotConn true g, .wroteRequest w1 w2]).TCPConnection = 0 ∧
      (run [.getConn hp, .gotConn true g, .wroteRequest w1 w2]).TLSHandshake = 0 := by
  rcases GetConn_cases hp ({} : Result) with h | h <;>
    simp [run, step, h, GotConn, WroteRequest, sub, hg.ne']

/-- Witness for C1 at `hp = "x"` (malformed, no colon), `g = 5`,
`w1 = w2 = 7`. -/
theorem reused_conn_backfills_and_zeroes_witness :
    (run [.getConn "x".toList, .gotConn true 5, .wroteRequest 7 7]).isReused = true ∧
      (run [.getConn "x".toList, .gotConn true 5, .wroteRequest 7 7]).t0 = 5 ∧
      (run [.getConn "x".toList, .gotConn true 5, .wroteRequest 7 7]).t1 = 5 ∧
      (run [.getConn "x".toList, .gotConn true 5, .wroteRequest 7 7]).t2 = 5 ∧
      (run [.getConn "x".toList, .gotConn true 5, .wroteRequest 7 7]).DNSLookup = 0 ∧
      (run [.getConn "x".toList, .gotConn true 5, .wroteRequest 7 7]).TCPConnection = 0 ∧
      (run [.getConn "x".toList, .gotConn true 5, .wroteRequest 7 7]).TLSHandshake = 0 :=
  reused_conn_backfills_and_zeroes "x".toList 5 7 7 (by decide)

/-- C2: for every run in which neither dns-start nor tcp-start was ever
set by the time `WroteRequest` fires — with or without a preceding
`GetConn`, so both the TLS branch (e.g. a legacy HTTPS run whose
`GetConn` saw port 443) and the non-TLS branch of `WroteRequest` are
covered — all of `t0`, `t1`, `t2`, `t3` are back-filled to the
request-fully-written time (the hook's second `time.Now()` reading), so
DNS-lookup, TCP-connect and TLS-handshake are exactly zero, while
server-processing and content-transfer are computed normally and are
positive for a well-formed run. -/
theorem legacy_fallback_collapse (hp : Option (List Char)) (w1 w2 f e : Nat)
    (hw : 0 < w2) (hf : w2 < f) (he : f < e) :
    (run (RunShape.events ⟨hp, none, none, none, (w1, w2), some f, some e⟩)).t0 = w2 ∧
      (run (RunShape.events ⟨hp, none, none, none, (w1, w2), some f, some e⟩)).t1 = w2 ∧
      (run (RunShape.events ⟨hp, none, none, none, (w1, w2), some f, some e⟩)).t2 = w2 ∧
      (run (RunShape.events ⟨hp, none, none, none, (w1, w2), some f, some e⟩)).t3 = w2 ∧
      (run (RunShape.events ⟨hp, none, none, none, (w1, w2), some f, some e⟩)).DNSLookup = 0 ∧
      (run (RunShape.events ⟨hp, none, none, none, (w1, w2), some f, some e⟩)).TCPConnection = 0 ∧
      (run (RunShape.events ⟨hp, none, none, none, (w1, w2), some f, some e⟩)).TLSHandshake = 0 ∧
      (run (RunShape.events ⟨hp, none, none, none, (w1, w2), some f, some e⟩)).ServerProcessing = sub f w2 ∧
      0 < (run (RunShape.events ⟨hp, none, none, none, (w1, w2), some f, some e⟩)).ServerProcessing ∧
      (run (RunShape.events ⟨hp, none, none, none, (w1, w2), some f, some e⟩)).contentTransfer = sub e f ∧
      0 < (run (RunShape.events ⟨hp, none, none, none, (w1, w2), some f, some e⟩)).contentTransfer ∧
      (run (RunShape.events ⟨hp, none, none, none, (w1, w2), some f, some e⟩)).total = sub e w2 ∧
      0 < (run (RunShape.events ⟨hp, none, none, none, (w1, w2), some f, some e⟩)).total := by
  rcases hp with _ | hpv
  · simp [RunShape.events, RunShape.tail, run, step, WroteRequest,
      GotFirstResponseByte, Result.End, sub, hw.ne']
    omega
  · rcases GetConn_cases hpv ({} : Result) with h | h <;>
      simp [RunShape.events, RunShape.tail, run, step, h, WroteRequest,
        GotFirstResponseByte, Result.End, sub, hw.ne'] <;>
      omega

/-- Witness for C2 at the legacy HTTPS-style run: `GetConn` with port
443 (so `isTLS` is set and the TLS branch of `WroteRequest` runs),
`w1 = w2 = 1`, `f = 2`, `e = 4`. -/
theorem legacy_fallback_collapse_witness :
    (run (RunShape.events ⟨some (String.toList "x.com:443"), none, none, none, (1, 1), some 2, some 4⟩)).t0 = 1 ∧
      (run (RunShape.events ⟨some (String.toList "x.com:443"), none, none, none, (1, 1), some 2, some 4⟩)).t1 = 1 ∧
      (run (RunShape.events ⟨some (String.toList "x.com:443"), none, none, none, (1, 1), some 2, some 4⟩)).t2 = 1 ∧
      (run (RunShape.events ⟨some (String.toList "x.com:443"), none, none, none, (1, 1), some 2, some 4⟩)).t3 = 1 ∧
      (run (RunShape.events ⟨some (String.toList "x.com:443"), none, none, none, (1, 1), some 2, some 4⟩)).DNSLookup = 0 ∧
      (run (RunShape.events ⟨some (String.toList "x.com:443"), none, none, none, (1, 1), some 2, some 4⟩)).TCPConnection = 0 ∧
      (run (RunShape.events ⟨some (String.toList "x.com:443"), none, none, none, (1, 1), some 2, some 4⟩)).TLSHandshake = 0 ∧
      (run (RunShape.events ⟨some (String.toList "x.com:443"), none, none, none, (1, 1), some 2, some 4⟩)).ServerProcessing = sub 2 1 ∧
      0 < (run (RunShape.events ⟨some (String.toList "x.com:443"), none, none, none, (1, 1), some 2, some 4⟩)).ServerProcessing ∧
      (run (RunShape.events ⟨some (String.toList "x.com:443"), none, none, none, (1, 1), some 2, some 4⟩)).contentTransfer = sub 4 2 ∧
      0 < (run (RunShape.events ⟨some (String.toList "x.com:443"), none, none, none, (1, 1), some 2, some 4⟩)).contentTransfer ∧
      (run (RunShape.events ⟨some (String.toList "x.com:443"), none, none, none, (1, 1), some 2, some 4⟩)).total = sub 4 1 ∧
      0 < (run (RunShape.events ⟨some (String.toList "x.com:443"), none, none, none, (1, 1), some 2, some 4⟩)).total :=
  legacy_fallback_collapse (some (String.toList "x.com:443")) 1 1 2 4
    (by decide) (by decide) (by decide)

/-- C4 counterexample: on a non-TLS run `ConnectDone` records its mark
but does not set the TCP-connect phase to connect-done minus
connect-start (it stays zero instead of `sub 10 3 = 7`), refuting
"regardless of whether the connection is TLS or not". -/
theorem connectdone_nonTLS_skips_tcp :
    (run [.connectStart 3, .connectDone 10]).t2 = 10 ∧
      (run [.connectStart 3, .connectDone 10]).TCPConnection ≠ sub 10 3 := by
  decide

/-- C4 amended: `ConnectDone` always records `t2 = now`; it sets
`TCPConnection = now − t1` and `Connect = now − t0` only when `isTLS` is
true, and leaves both durations unchanged when `isTLS` is false (the
non-TLS derivation happens later, in `WroteRequest`). -/
theorem connectdone_guarded_by_isTLS (now : Nat) (r : Result) :
    (ConnectDone now r).t2 = now ∧
      (r.isTLS = true → (ConnectDone now r).TCPConnection = sub now r.t1 ∧
        (ConnectDone now r).Connect = sub now r.t0) ∧
      (r.isTLS = false → (ConnectDone now r).TCPConnection = r.TCPConnection ∧
        (ConnectDone now r).Connect = r.Connect) := by
  unfold ConnectDone
  by_cases h : r.isTLS <;> simp [h]

/-- Witness for C4's amended theorem at a TLS and a non-TLS recorder. -/
theorem connectdone_guarded_by_isTLS_witness :
    ((ConnectDone 10 ({ isTLS := true, t0 := 2, t1 := 3 } : Result)).t2 = 10 ∧
      (({ isTLS := true, t0 := 2, t1 := 3 } : Result).isTLS = true →
        (ConnectDone 10 ({ isTLS := true, t0 := 2, t1 := 3 } : Result)).TCPConnection = sub 10 3 ∧
        (ConnectDone 10 ({ isTLS := true, t0 := 2, t1 := 3 } : Result)).Connect = sub 10 2) ∧
      (({ isTLS := true, t0 := 2, t1 := 3 } : Result).isTLS = false →
        (ConnectDone 10 ({ isTLS := true, t0 := 2, t1 := 3 } : Result)).TCPConnection =
          ({ isTLS := true, t0 := 2, t1 := 3 } : Result).TCPConnection ∧
        (ConnectDone 10 ({ isTLS := true, t0 := 2, t1 := 3 } : Result)).Connect =
          ({ isTLS := true, t0 := 2, t1 := 3 } : Result).Connect)) ∧
    (ConnectDone 10 ({ t1 := 3 } : Result)).TCPConnection =
      ({ t1 := 3 } : Result).TCPConnection :=
  ⟨connectdone_guarded_by_isTLS 10 { isTLS := true, t0 := 2, t1 := 3 },
   ((connectdone_guarded_by_isTLS 10 { t1 := 3 }).2.2 rfl).1⟩

/-- C5: `End` with a caller-supplied instant records `t5 = t` always;
when `t0` (dns-start) was never set it changes nothing else, so
`contentTransfer` and `total` remain exactly zero; otherwise it sets
`contentTransfer = t − t4` (first-response-byte mark) and
`total = t − t0` (the timeline origin). -/
theorem end_finalize_semantics (r : Result) (t : Nat) :
    (r.t0 = 0 → r.End t = { r with t5 := t }) ∧
      (r.t0 ≠ 0 → (r.End t).t5 = t ∧ (r.End t).contentTransfer = sub t r.t4 ∧
        (r.End t).total = sub t r.t0) := by
  unfold Result.End
  by_cases h : r.t0 = 0 <;> simp [h]

/-- Witness for C5 at a never-started recorder and at a started one. -/
theorem end_finalize_semantics_witness :
    (({} : Result).End 7 = { ({} : Result) with t5 := 7 }) ∧
      (({ t0 := 2, t4 := 5 } : Result).End 7).contentTransfer = sub 7 5 ∧
      (({ t0 := 2, t4 := 5 } : Result).End 7).total = sub 7 2 :=
  ⟨(end_finalize_semantics {} 7).1 rfl,
   ((end_finalize_semantics { t0 := 2, t4 := 5 } 7).2 (by decide)).2.1,
   ((end_finalize_semantics { t0 := 2, t4 := 5 } 7).2 (by decide)).2.2⟩

/-- C6: on a TLS run the `durations` map of the source binds the
`"Pretransfer"` key to the `Connect` field, so the compact report emits
the connect cumulative value (here 2 ns) under `"Pretransfer"` while the
recorder's pre-transfer cumulative value is 4 ns. The code contradicts
the intended meaning of the key. -/
theorem pretransfer_key_shows_connect :
    List.lookup "Pretransfer"
        (run [.getConn "x.com:443".toList, .dnsStart 1, .dnsDone 2,
          .connectStart 2, .connectDone 3, .wroteRequest 5 5]).durations =
      some (run [.getConn "x.com:443".toList, .dnsStart 1, .dnsDone 2,
          .connectStart 2, .connectDone 3, .wroteRequest 5 5]).Connect ∧
    (run [.getConn "x.com:443".toList, .dnsStart 1, .dnsDone 2,
        .connectStart 2, .connectDone 3, .wroteRequest 5 5]).Connect = 2 ∧
    (run [.getConn "x.com:443".toList, .dnsStart 1, .dnsDone 2,
        .connectStart 2, .connectDone 3, .wroteRequest 5 5]).Pretransfer = 4 := by
  decide

/-- C7: `GetConn` with a malformed host:port string leaves the recorder
entirely unchanged; with a splittable string whose port is `"443"` it
sets `isTLS` and changes nothing else. -/
theorem getconn_port_heuristic (hp : List Char) (r : Result) :
    (splitHostPort hp = none → GetConn hp r = r) ∧
      (∀ host port, splitHostPort hp = some (host, port) →
        port = ['4', '4', '3'] → GetConn hp r = { r with isTLS := true }) := by
  constructor
  · intro h; unfold GetConn; rw [h]
  · intro host port h h443; unfold GetConn; rw [h]; simp [h443]

/-- Witness for C7 at the malformed `"nocolon"` and at
`"example.com:443"`. -/
theorem getconn_port_heuristic_witness :
    GetConn "nocolon".toList ({} : Result) = ({} : Result) ∧
      GetConn "example.com:443".toList ({} : Result) =
        { ({} : Result) with isTLS := true } :=
  ⟨(getconn_port_heuristic "nocolon".toList {}).1 (by decide),
   (getconn_port_heuristic "example.com:443".toList {}).2
     "example.com".toList "443".toList (by decide) (by decide)⟩

/-- C9: the sampling accessors return `t − t4` (first-response-byte mark)
and `t − t0` (dns-start mark) respectively, and leave the receiver
exactly as it was. -/
theorem sampling_accessors_pure (r : Result) (t : Nat) :
    r.ContentTransfer t = (sub t r.t4, r) ∧ r.Total t = (sub t r.t0, r) :=
  ⟨rfl, rfl⟩

/-- C10: `End` on a never-started recorder still records the finalization
mark `t5` before its early return, so the compact format afterwards
renders `ContentTransfer` and `Total` as `0 ms`, not as the `-`
placeholder reserved for un-finalized recorders. -/
theorem end_marks_t5_before_early_return (t : Nat) (ht : 0 < t) :
    (({} : Result).End t).t5 = t ∧
      formatCompact (({} : Result).End t) (({} : Result).End t).durations =
        "DNSLookup: 0 ms, TCPConnection: 0 ms, TLSHandshake: 0 ms, ServerProcessing: 0 ms, ContentTransfer: 0 ms, NameLookup: 0 ms, Connect: 0 ms, Pretransfer: 0 ms, StartTransfer: 0 ms, Total: 0 ms" := by
  have hr : ({} : Result).End t = { ({} : Result) with t5 := t } := by
    simp [Result.End]
  rw [hr]
  refine ⟨rfl, ?_⟩
  simp only [formatCompact, Result.durations, compactEntry, List.map,
    ht.ne', and_false, if_false]
  decide

/-- A finalized recorder in which every phase duration and cumulative
value equals 100 ms (100000000 ns); `t5` is nonzero, so the compact
format prints no `-` placeholder. -/
def r100 : Result :=
  { DNSLookup := 100000000, TCPConnection := 100000000, TLSHandshake := 100000000,
    ServerProcessing := 100000000, contentTransfer := 100000000,
    NameLookup := 100000000, Connect := 100000000, Pretransfer := 100000000,
    StartTransfer := 100000000, total := 100000000, t5 := 1 }

/-- Go `%4d`/`%4s`: right-justify in a minimum width of four,
space-padded. -/
def pad4 (s : String) : String :=
  if s.length < 4 then String.mk (List.replicate (4 - s.length) ' ') ++ s else s

/-- The verbose (`%+v`) branch of `Result.Format`: the fixed two-block
layout, `%4d` of `int(v / time.Millisecond)` per line (truncating
division), with the `Content transfer` and `Total` lines replaced by
`%4s` of `-` while `t5` is zero. The prefix literals are copied from the
source's `Fprintf` format strings. -/
def formatVerbose (r : Result) : String :=
  "DNS lookup:        " ++ pad4 (toString (Int.tdiv r.DNSLookup Millisecond)) ++ " ms\n" ++
  "TCP connection:    " ++ pad4 (toString (Int.tdiv r.TCPConnection Millisecond)) ++ " ms\n" ++
  "TLS handshake:     " ++ pad4 (toString (Int.tdiv r.TLSHandshake Millisecond)) ++ " ms\n" ++
  "Server processing: " ++ pad4 (toString (Int.tdiv r.ServerProcessing Millisecond)) ++ " ms\n" ++
  (if r.t5 ≠ 0 then
    "Content transfer:  " ++ pad4 (toString (Int.tdiv r.contentTransfer Millisecond)) ++ " ms\n\n"
  else
    "Content transfer:  " ++ pad4 "-" ++ " ms\n\n") ++
  "Name Lookup:    " ++ pad4 (toString (Int.tdiv r.NameLookup Millisecond)) ++ " ms\n" ++
  "Connect:        " ++ pad4 (toString (Int.tdiv r.Connect Millisecond)) ++ " ms\n" ++
  "Pre Transfer:   " ++ pad4 (toString (Int.tdiv r.Pretransfer Millisecond)) ++ " ms\n" ++
  "Start Transfer: " ++ pad4 (toString (Int.tdiv r.StartTransfer Millisecond)) ++ " ms\n" ++
  (if r.t5 ≠ 0 then
    "Total:          " ++ pad4 (toString (Int.tdiv r.total Millisecond)) ++ " ms\n"
  else
    "Total:          " ++ pad4 "-" ++ " ms\n")

/-- The `r100` recorder with every value bumped by 999999 ns to
100.999999 ms: it renders identically to `r100` exactly because the
millisecond figure is truncated, not rounded up. -/
def r100trunc : Result :=
  { DNSLookup := 100999999, TCPConnection := 100999999, TLSHandshake := 100999999,
    ServerProcessing := 100999999, contentTransfer := 100999999,
    NameLookup := 100999999, Connect := 100999999, Pretransfer := 100999999,
    StartTransfer := 100999999, total := 100999999, t5 := 1 }

/-- C8 counterexample: the compact format joins the entries of a Go map
in `range` order, which the language leaves unspecified; the reversed
enumeration is a permutation of `r100.durations` the loop may produce,
and it does not yield the documented-key-order string. -/
theorem compact_order_unspecified :
    List.Perm r100.durations.reverse r100.durations ∧
      formatCompact r100 r100.durations.reverse ≠
        "DNSLookup: 100 ms, TCPConnection: 100 ms, TLSHandshake: 100 ms, ServerProcessing: 100 ms, ContentTransfer: 100 ms, NameLookup: 100 ms, Connect: 100 ms, Pretransfer: 100 ms, StartTransfer: 100 ms, Total: 100 ms" :=
  ⟨List.reverse_perm r100.durations, by decide⟩

/-- C8 amended: for the all-100 ms finalized recorder, the compact
format is the comma-join of `key: 100 ms` over the ten entries in
whatever order the map loop enumerates them (the fixed documented order
is not guaranteed, since Go map iteration order is unspecified), and the
verbose format produces exactly the documented two-block literal with
`100` per field; numeric values in both formats are truncated, never
rounded up: a 100999999 ns value still prints `100 ms` compactly, and
the all-100.999999 ms recorder renders the very same verbose block. -/
theorem compact_per_field_rendering (entries : List (String × Int))
    (h : List.Perm entries r100.durations) :
    formatCompact r100 entries =
        String.intercalate ", " (entries.map (fun kv => kv.1 ++ ": 100 ms")) ∧
      compactEntry r100 ("DNSLookup", 100999999) = "DNSLookup: 100 ms" ∧
      formatVerbose r100 =
        "DNS lookup:         100 ms\nTCP connection:     100 ms\nTLS handshake:      100 ms\nServer processing:  100 ms\nContent transfer:   100 ms\n\nName Lookup:     100 ms\nConnect:         100 ms\nPre Transfer:    100 ms\nStart Transfer:  100 ms\nTotal:           100 ms\n" ∧
      formatVerbose r100trunc = formatVerbose r100 := by
  refine ⟨?_, by decide, by decide, by decide⟩
  unfold formatCompact
  have hev : ∀ kv ∈ entries, compactEntry r100 kv = kv.1 ++ ": 100 ms" := by
    intro kv hkv
    have hmem : kv ∈ r100.durations := h.mem_iff.mp hkv
    simp only [r100, Result.durations, List.mem_cons, List.not_mem_nil,
      or_false] at hmem
    rcases hmem with h1 | h1 | h1 | h1 | h1 | h1 | h1 | h1 | h1 | h1 <;>
      subst h1 <;> decide
  rw [List.map_congr_left hev]

/-- Witness for C8's amended theorem at the source-order enumeration. -/
theorem compact_per_field_rendering_witness :
    formatCompact r100 r100.durations =
        String.intercalate ", " (r100.durations.map (fun kv => kv.1 ++ ": 100 ms")) ∧
      compactEntry r100 ("DNSLookup", 100999999) = "DNSLookup: 100 ms" ∧
      formatVerbose r100 =
        "DNS lookup:         100 ms\nTCP connection:     100 ms\nTLS handshake:      100 ms\nServer processing:  100 ms\nContent transfer:   100 ms\n\nName Lookup:     100 ms\nConnect:         100 ms\nPre Transfer:    100 ms\nStart Transfer:  100 ms\nTotal:           100 ms\n" ∧
      formatVerbose r100trunc = formatVerbose r100 :=
  compact_per_field_rendering r100.durations (List.Perm.refl _)

set_option maxHeartbeats 4000000 in
/-- C3 amended: for every run whose callbacks arrive in lifecycle order
(optional `GetConn`, optional DNS pair, optional connect pair, optional
`GotConn`, `WroteRequest`, optional `GotFirstResponseByte`, at most one
final `End`) with non-decreasing timestamps, all five phase durations and
all five cumulative timeline values are non-negative, and a phase whose
marks were never distinctly set is exactly zero: no DNS pair leaves
DNS-lookup (and name-lookup) zero, no DNS and no connect pair leave
TCP-connect and TLS-handshake zero, no first-response-byte leaves
server-processing and start-transfer zero, and no finalization leaves
content-transfer and total zero. -/
theorem lifecycle_ordered_nonneg (s : RunShape) (h : MonoTimes s.events) :
    NonnegAll (run s.events) ∧
      (s.dns = none → (run s.events).DNSLookup = 0 ∧ (run s.events).NameLookup = 0) ∧
      (s.dns = none ∧ s.conn = none →
        (run s.events).TCPConnection = 0 ∧ (run s.events).TLSHandshake = 0) ∧
      (s.frb = none →
        (run s.events).ServerProcessing = 0 ∧ (run s.events).StartTransfer = 0) ∧
      (s.fin = none →
        (run s.events).contentTransfer = 0 ∧ (run s.events).total = 0) := by
  obtain ⟨hp, dns, conn, gotC, ⟨w1, w2⟩, frb, fin⟩ := s
  have key : ∀ b : Bool,
      MonoTimes (RunShape.tail ⟨none, dns, conn, gotC, (w1, w2), frb, fin⟩) →
      (NonnegAll (List.foldl step ({ isTLS := b } : Result)
          (RunShape.tail ⟨none, dns, conn, gotC, (w1, w2), frb, fin⟩)) ∧
        (dns = none →
          (List.foldl step ({ isTLS := b } : Result)
            (RunShape.tail ⟨none, dns, conn, gotC, (w1, w2), frb, fin⟩)).DNSLookup = 0 ∧
          (List.foldl step ({ isTLS := b } : Result)
            (RunShape.tail ⟨none, dns, conn, gotC, (w1, w2), frb, fin⟩)).NameLookup = 0) ∧
        (dns = none ∧ conn = none →
          (List.foldl step ({ isTLS := b } : Result)
            (RunShape.tail ⟨none, dns, conn, gotC, (w1, w2), frb, fin⟩)).TCPConnection = 0 ∧
          (List.foldl step ({ isTLS := b } : Result)
            (RunShape.tail ⟨none, dns, conn, gotC, (w1, w2), frb, fin⟩)).TLSHandshake = 0) ∧
        (frb = none →
          (List.foldl step ({ isTLS := b } : Result)
            (RunShape.tail ⟨none, dns, conn, gotC, (w1, w2), frb, fin⟩)).ServerProcessing = 0 ∧
          (List.foldl step ({ isTLS := b } : Result)
            (RunShape.tail ⟨none, dns, conn, gotC, (w1, w2), frb, fin⟩)).StartTransfer = 0) ∧
        (fin = none →
          (List.foldl step ({ isTLS := b } : Result)
            (RunShape.tail ⟨none, dns, conn, gotC, (w1, w2), frb, fin⟩)).contentTransfer = 0 ∧
          (List.foldl step ({ isTLS := b } : Result)
            (RunShape.tail ⟨none, dns, conn, gotC, (w1, w2), frb, fin⟩)).total = 0)) := by
    intro b hm
    rcases dns with _ | ⟨d1, d2⟩ <;> rcases conn with _ | ⟨c1, c2⟩ <;>
      rcases gotC with _ | ⟨_ | _, g⟩ <;> rcases frb with _ | f <;>
      rcases fin with _ | e <;>
      (try simp only [RunShape.tail, MonoTimes, sortedLE, timesOf,
        Event.times, List.map, List.flatten, List.append_nil,
        List.nil_append, List.cons_append, List.singleton_append,
        Bool.and_eq_true, decide_eq_true_eq, and_true] at hm) <;>
      simp only [RunShape.tail, List.append_nil, List.nil_append,
        List.cons_append, List.singleton_append, List.foldl_cons,
        List.foldl_nil, step] <;>
      (try simp only [DNSStart, DNSDone]) <;>
      (try simp only [ConnectStart]) <;> (try simp) <;> (try split) <;>
      (try simp only [ConnectDone]) <;> (try simp) <;> (try split) <;>
      (try simp only [GotConn]) <;> (try simp) <;> (try split) <;>
      (try simp only [WroteRequest]) <;>
      (try simp) <;> (try split) <;> (try simp) <;> (try split) <;>
      (try simp) <;> (try split) <;>
      (try simp only [GotFirstResponseByte]) <;>
      (try simp only [Result.End]) <;> (try simp) <;> (try split) <;>
      (try simp only [NonnegAll, sub]) <;>
      (try simp) <;>
      (try omega)
  rcases hp with _ | hpv
  · exact key false h
  · rcases GetConn_cases hpv ({} : Result) with hG | hG
    · rw [show run (RunShape.events ⟨some hpv, dns, conn, gotC, (w1, w2), frb, fin⟩) =
          List.foldl step (GetConn hpv ({} : Result))
            (RunShape.tail ⟨none, dns, conn, gotC, (w1, w2), frb, fin⟩) from rfl, hG]
      exact key false h
    · rw [show run (RunShape.events ⟨some hpv, dns, conn, gotC, (w1, w2), frb, fin⟩) =
          List.foldl step (GetConn hpv ({} : Result))
            (RunShape.tail ⟨none, dns, conn, gotC, (w1, w2), frb, fin⟩) from rfl, hG]
      exact key true h

/-- Witness for C3's amended theorem at a full fresh HTTPS-style run. -/
theorem lifecycle_ordered_nonneg_witness :
    NonnegAll (run (RunShape.events ⟨some "x.com:443".toList, some (1, 2),
        some (2, 3), some (false, 4), (5, 5), some 6, some 8⟩)) ∧
      ((⟨some "x.com:443".toList, some (1, 2), some (2, 3), some (false, 4),
          (5, 5), some 6, some 8⟩ : RunShape).dns = none →
        (run (RunShape.events ⟨some "x.com:443".toList, some (1, 2), some (2, 3),
          some (false, 4), (5, 5), some 6, some 8⟩)).DNSLookup = 0 ∧
        (run (RunShape.events ⟨some "x.com:443".toList, some (1, 2), some (2, 3),
          some (false, 4), (5, 5), some 6, some 8⟩)).NameLookup = 0) ∧
      ((⟨some "x.com:443".toList, some (1, 2), some (2, 3), some (false, 4),
          (5, 5), some 6, some 8⟩ : RunShape).dns = none ∧
        (⟨some "x.com:443".toList, some (1, 2), some (2, 3), some (false, 4),
          (5, 5), some 6, some 8⟩ : RunShape).conn = none →
        (run (RunShape.events ⟨some "x.com:443".toList, some (1, 2), some (2, 3),
          some (false, 4), (5, 5), some 6, some 8⟩)).TCPConnection = 0 ∧
        (run (RunShape.events ⟨some "x.com:443".toList, some (1, 2), some (2, 3),
          some (false, 4), (5, 5), some 6, some 8⟩)).TLSHandshake = 0) ∧
      ((⟨some "x.com:443".toList, some (1, 2), some (2, 3), some (false, 4),
          (5, 5), some 6, some 8⟩ : RunShape).frb = none →
        (run (RunShape.events ⟨some "x.com:443".toList, some (1, 2), some (2, 3),
          some (false, 4), (5, 5), some 6, some 8⟩)).ServerProcessing = 0 ∧
        (run (RunShape.events ⟨some "x.com:443".toList, some (1, 2), some (2, 3),
          some (false, 4), (5, 5), some 6, some 8⟩)).StartTransfer = 0) ∧
      ((⟨some "x.com:443".toList, some (1, 2), some (2, 3), some (false, 4),
          (5, 5), some 6, some 8⟩ : RunShape).fin = none →
        (run (RunShape.events ⟨some "x.com:443".toList, some (1, 2), some (2, 3),
          some (false, 4), (5, 5), some 6, some 8⟩)).contentTransfer = 0 ∧
        (run (RunShape.events ⟨some "x.com:443".toList, some (1, 2), some (2, 3),
          some (false, 4), (5, 5), some 6, some 8⟩)).total = 0) :=
  lifecycle_ordered_nonneg ⟨some "x.com:443".toList, some (1, 2), some (2, 3),
    some (false, 4), (5, 5), some 6, some 8⟩ (by decide)

/-- Witness for C10 at `t = 7`. -/
theorem end_marks_t5_before_early_return_witness :
    (({} : Result).End 7).t5 = 7 ∧
      formatCompact (({} : Result).End 7) (({} : Result).End 7).durations =
        "DNSLookup: 0 ms, TCPConnection: 0 ms, TLSHandshake: 0 ms, ServerProcessing: 0 ms, ContentTransfer: 0 ms, NameLookup: 0 ms, Connect: 0 ms, Pretransfer: 0 ms, StartTransfer: 0 ms, Total: 0 ms" :=
  end_marks_t5_before_early_return 7 (by decide)

end Httpstat
